import Mathlib

/-!
Verification of the ZTE modem HTTP-client module (`custom_components/zte_modem`).

The development shallowly embeds the pure content of `api.py` and
`coordinator.py`: HTTP responses become a record of status code and body,
the regex patterns of the scraping code are hand-compiled into
deterministic scanners (each pattern in the source is anchored
letter-by-letter, so backtracking never changes the match), and Python's
`int` / string primitives are modelled on ASCII data, which is the data
the device pages carry.  Stateful methods (`_login`, `_make_request`,
`restart_device`, `_async_update_data`) become pure functions over an
explicit session flag plus the responses the network would deliver.
-/

/-! ## HTTP-level data model -/

/-- An HTTP response as the client observes it: status code and body text. -/
structure HttpResponse where
  status : Nat
  body : String
deriving DecidableEq

/-! ## Python primitive models (ASCII fragment)

`_parse_error_type` feeds two-character slices to `int(s, 16)` and
`get_optical_info` feeds regex groups to `int(s)`.  The models below follow
Python's grammar for integer literals restricted to ASCII text: optional
surrounding whitespace, an optional sign, then a nonempty digit run in which
single underscores may stand between digits.  (Python additionally accepts
non-ASCII Unicode digits and whitespace; the device pages are ASCII, and no
claim depends on that extension.)  `none` models a raised `ValueError`. -/

/-- ASCII whitespace stripped by Python `int` around a numeric literal. -/
def isPySpace (c : Char) : Bool :=
  c == ' ' || c == '\t' || c == '\n' || c == '\r' || c == Char.ofNat 11 || c == Char.ofNat 12

/-- Value of an ASCII hexadecimal digit, `none` on any other character. -/
def hexDigitVal? (c : Char) : Option Nat :=
  if c.isDigit then some (c.toNat - 48)
  else if 'a' ≤ c ∧ c ≤ 'f' then some (c.toNat - 87)
  else if 'A' ≤ c ∧ c ≤ 'F' then some (c.toNat - 55)
  else none

/-- Value of an ASCII decimal digit, `none` on any other character. -/
def decDigitVal? (c : Char) : Option Nat :=
  if c.isDigit then some (c.toNat - 48) else none

/-- Digit run after the first digit: single underscores may separate digits. -/
def pyDigitsLoop (dv : Char → Option Nat) (base : Nat) : Nat → List Char → Option Nat
  | acc, [] => some acc
  | _acc, ['_'] => none
  | acc, '_' :: c :: rest =>
    match dv c with
    | some v => pyDigitsLoop dv base (acc * base + v) rest
    | none => none
  | acc, c :: rest =>
    match dv c with
    | some v => pyDigitsLoop dv base (acc * base + v) rest
    | none => none

/-- Python `int(s, base)` on ASCII text (see the section comment): strip
whitespace from both ends, read an optional sign, then the digit run. -/
def pyIntCore (dv : Char → Option Nat) (base : Nat) (l : List Char) : Option Int :=
  match ((l.dropWhile isPySpace).reverse.dropWhile isPySpace).reverse with
  | '+' :: c :: rest =>
    match dv c with
    | some v => (pyDigitsLoop dv base v rest).map Int.ofNat
    | none => none
  | '-' :: c :: rest =>
    match dv c with
    | some v => (pyDigitsLoop dv base v rest).map (fun n => -(Int.ofNat n))
    | none => none
  | c :: rest =>
    match dv c with
    | some v => (pyDigitsLoop dv base v rest).map Int.ofNat
    | none => none
  | [] => none

/-- Python `int(s, 16)`. -/
def pyIntHex? (l : List Char) : Option Int := pyIntCore hexDigitVal? 16 l

/-- Python `int(s)`. -/
def pyIntDec? (l : List Char) : Option Int := pyIntCore decDigitVal? 10 l

/-- Python `str` of an integer, as a character list. -/
def intToChars (v : Int) : List Char := (toString v).toList

/-! ## `_parse_error_type` (api.py lines 281-302)

The source walks an index `i` through the string.  When the two characters
at `i` are `\x` it slices the next two characters, tries `int(_, 16)`, and
on success appends the decimal rendering and advances by 4; on
`ValueError` it appends the single character `str[i]` (the backslash) and
advances by 1 — the following `x` then necessarily falls into the plain
branch on the next iteration, because `x` never begins an escape.  The
equations below mirror that walk; the `none` branch fuses the forced
one-character step for the `x` so that every recursive call is structural.
The final two equations cover a trailing `\x` whose hex slice is shorter
than two characters (Python's slicing truncates at the end of the string:
a one-character slice is still handed to `int`). -/

/-- The decoding loop of `_parse_error_type`. -/
def parseErrorType : List Char → List Char
  | '\\' :: 'x' :: c1 :: c2 :: rest =>
    match pyIntHex? [c1, c2] with
    | some v => intToChars v ++ parseErrorType rest
    | none => '\\' :: 'x' :: parseErrorType (c1 :: c2 :: rest)
  | '\\' :: 'x' :: [c1] =>
    match pyIntHex? [c1] with
    | some v => intToChars v
    | none => ['\\', 'x', c1]
  | '\\' :: 'x' :: [] => ['\\', 'x']
  | c :: rest => c :: parseErrorType rest
  | [] => []

/-- Whether the two-character substring `\x` occurs anywhere in the list. -/
def hasEsc : List Char → Bool
  | '\\' :: 'x' :: _ => true
  | _ :: rest => hasEsc rest
  | [] => false

/-! ## Hand-compiled regex scanners

Every pattern the source feeds to `re.search` / `re.findall` is a chain of
literal runs, maximal character-class runs (`\d+`, `\s+`, `[^x]+`, `[^>]*`)
and anchored literals.  For such patterns backtracking never recovers a
failed greedy run (a shorter run would put a class character where the next
literal must sit), so a match attempt at a position is the deterministic
scan coded below, `re.search` is the first matching position from the
left, and `re.findall` the non-overlapping left-to-right matches, resuming
after each match.  Character classes are modelled over ASCII, which is
what the device pages contain.  The generic walkers use explicit fuel so
that they are structurally recursive; every matcher consumes at least one
character, hence fuel `length + 1` covers the whole text. -/

/-- Consume an exact literal, returning the rest of the text. -/
def parseLit : List Char → List Char → Option (List Char)
  | [], l => some l
  | _ :: _, [] => none
  | a :: as, b :: bs => if a = b then parseLit as bs else none

/-- Maximal nonempty ASCII digit run (regex `\d+`): group and rest. -/
def parseDigits (l : List Char) : Option (List Char × List Char) :=
  let g := l.takeWhile Char.isDigit
  if g.isEmpty then none else some (g, l.dropWhile Char.isDigit)

/-- Numeric value of an all-digit group (Python `int` of a digit string). -/
def digitsVal (g : List Char) : Nat :=
  g.foldl (fun a c => 10 * a + (c.toNat - 48)) 0

/-- Maximal nonempty run of characters other than `c` (`[^c]+`), rest keeps `c`. -/
def parseUntilKeep (c : Char) (l : List Char) : Option (List Char × List Char) :=
  let g := l.takeWhile (· ≠ c)
  if g.isEmpty then none else some (g, l.dropWhile (· ≠ c))

/-- Maximal nonempty run of characters other than `c` (`[^c]+c`), consuming `c`. -/
def parseUntilCh (c : Char) (l : List Char) : Option (List Char × List Char) :=
  let g := l.takeWhile (· ≠ c)
  if g.isEmpty then none
  else
    match l.dropWhile (· ≠ c) with
    | _ :: rest => some (g, rest)
    | [] => none

/-- Regex `[^>]*>`: the possibly-empty run before the first `>` and the rest after it. -/
def parseToGt (l : List Char) : Option (List Char × List Char) :=
  match l.dropWhile (· ≠ '>') with
  | _ :: rest => some (l.takeWhile (· ≠ '>'), rest)
  | [] => none

/-- Regex `\s+` (ASCII): requires at least one whitespace character. -/
def parseWs1 (l : List Char) : Option (List Char) :=
  if (l.takeWhile isPySpace).isEmpty then none else some (l.dropWhile isPySpace)

/-- Split at the first occurrence of `lit`: the text before it and the text
after it.  This is the reluctant group-plus-literal `(.*?)lit` of the
table and body patterns (with `re.DOTALL`, `.` crosses newlines, so no
line structure is involved). -/
def splitAtLit (lit : List Char) : List Char → Option (List Char × List Char)
  | [] =>
    match parseLit lit [] with
    | some r => some ([], r)
    | none => none
  | c :: tl =>
    match parseLit lit (c :: tl) with
    | some r => some ([], r)
    | none =>
      match splitAtLit lit tl with
      | some (pre, post) => some (c :: pre, post)
      | none => none

/-- Whether `needle` occurs as a contiguous substring (Python `in`). -/
def hasSubstr (needle : List Char) : List Char → Bool
  | [] => (parseLit needle []).isSome
  | l@(_ :: tl) => (parseLit needle l).isSome || hasSubstr needle tl

/-- Fuelled `re.findall`: try a match at each position, resume after matches. -/
def findallAux {G : Type} (m : List Char → Option (G × List Char)) :
    Nat → List Char → List G
  | 0, _ => []
  | fuel + 1, l =>
    match m l with
    | some (g, r) => g :: findallAux m fuel r
    | none =>
      match l with
      | [] => []
      | _ :: tl => findallAux m fuel tl

/-- Python `re.findall(pattern, text)` for the deterministic patterns here. -/
def reFindall {G : Type} (m : List Char → Option (G × List Char)) (l : List Char) : List G :=
  findallAux m (l.length + 1) l

/-- Fuelled `re.search`: first match scanning positions left to right. -/
def searchAux {G : Type} (m : List Char → Option (G × List Char)) :
    Nat → List Char → Option G
  | 0, _ => none
  | fuel + 1, l =>
    match m l with
    | some (g, _) => some g
    | none =>
      match l with
      | [] => none
      | _ :: tl => searchAux m fuel tl

/-- Python `re.search(pattern, text)` for the deterministic patterns here. -/
def reSearch {G : Type} (m : List Char → Option (G × List Char)) (l : List Char) : Option G :=
  searchAux m (l.length + 1) l

/-! ## Password encryption (`_encrypt_password`, api.py lines 44-57)

The source encrypts the PKCS7-style padded password with AES-128-CBC using
the hardcoded key `b"1111111111111111"` (sixteen ASCII `1` bytes, 0x31) and
the hardcoded IV `b"0000000000000000"` — sixteen ASCII `0` bytes (0x30),
not sixteen zero bytes — then base64-encodes the ciphertext.  AES-128 is
implemented below in full (FIPS-197); the S-box is given as a table and
`sboxCalc` recomputes it from the GF(2^8) inverse and affine map, with the
two tied together by a theorem at the end of the file. -/

/-- Multiplication by x in GF(2^8) modulo the AES polynomial 0x11b. -/
def xtime (a : Nat) : Nat := if a < 128 then 2 * a else (2 * a - 256) ^^^ 27

/-- Russian-peasant GF(2^8) product, eight shift-and-add steps. -/
def gmulAux : Nat → Nat → Nat → Nat → Nat
  | 0, _, _, acc => acc
  | n + 1, a, b, acc =>
    gmulAux n (xtime a) (b / 2) (if b % 2 = 1 then acc ^^^ a else acc)

/-- GF(2^8) multiplication. -/
def gmul (a b : Nat) : Nat := gmulAux 8 a b 0

/-- GF(2^8) multiplicative inverse via a^254 (and 0 maps to 0). -/
def ginv (a : Nat) : Nat :=
  let x2 := gmul a a
  let x4 := gmul x2 x2
  let x8 := gmul x4 x4
  let x16 := gmul x8 x8
  let x32 := gmul x16 x16
  let x64 := gmul x32 x32
  let x128 := gmul x64 x64
  gmul x128 (gmul x64 (gmul x32 (gmul x16 (gmul x8 (gmul x4 x2)))))

/-- Rotate an 8-bit value left by k. -/
def rotl8 (x k : Nat) : Nat := ((x <<< k) ||| (x >>> (8 - k))) % 256

/-- The AES S-box as inverse-then-affine (FIPS-197 section 5.1.1). -/
def sboxCalc (a : Nat) : Nat :=
  let i := ginv a
  i ^^^ rotl8 i 1 ^^^ rotl8 i 2 ^^^ rotl8 i 3 ^^^ rotl8 i 4 ^^^ 99

/-- The AES S-box table (equal to `sboxCalc` pointwise; see `sboxTable_eq_calc`). -/
def sboxTable : List Nat := [
  99, 124, 119, 123, 242, 107, 111, 197, 48, 1, 103, 43, 254, 215, 171, 118,
  202, 130, 201, 125, 250, 89, 71, 240, 173, 212, 162, 175, 156, 164, 114, 192,
  183, 253, 147, 38, 54, 63, 247, 204, 52, 165, 229, 241, 113, 216, 49, 21,
  4, 199, 35, 195, 24, 150, 5, 154, 7, 18, 128, 226, 235, 39, 178, 117,
  9, 131, 44, 26, 27, 110, 90, 160, 82, 59, 214, 179, 41, 227, 47, 132,
  83, 209, 0, 237, 32, 252, 177, 91, 106, 203, 190, 57, 74, 76, 88, 207,
  208, 239, 170, 251, 67, 77, 51, 133, 69, 249, 2, 127, 80, 60, 159, 168,
  81, 163, 64, 143, 146, 157, 56, 245, 188, 182, 218, 33, 16, 255, 243, 210,
  205, 12, 19, 236, 95, 151, 68, 23, 196, 167, 126, 61, 100, 93, 25, 115,
  96, 129, 79, 220, 34, 42, 144, 136, 70, 238, 184, 20, 222, 94, 11, 219,
  224, 50, 58, 10, 73, 6, 36, 92, 194, 211, 172, 98, 145, 149, 228, 121,
  231, 200, 55, 109, 141, 213, 78, 169, 108, 86, 244, 234, 101, 122, 174, 8,
  186, 120, 37, 46, 28, 166, 180, 198, 232, 221, 116, 31, 75, 189, 139, 138,
  112, 62, 181, 102, 72, 3, 246, 14, 97, 53, 87, 185, 134, 193, 29, 158,
  225, 248, 152, 17, 105, 217, 142, 148, 155, 30, 135, 233, 206, 85, 40, 223,
  140, 161, 137, 13, 191, 230, 66, 104, 65, 153, 45, 15, 176, 84, 187, 22]

/-- S-box lookup. -/
def sbox (a : Nat) : Nat := sboxTable.getD a 0

/-- Bytewise xor of two equal-length byte lists. -/
def zipXor (a b : List Nat) : List Nat := List.zipWith (fun x y => x ^^^ y) a b

/-- AES SubBytes. -/
def subBytes (s : List Nat) : List Nat := s.map sbox

/-- AES ShiftRows on the flat column-major 16-byte state. -/
def shiftRows : List Nat → List Nat
  | [a0, a1, a2, a3, a4, a5, a6, a7, a8, a9, a10, a11, a12, a13, a14, a15] =>
    [a0, a5, a10, a15, a4, a9, a14, a3, a8, a13, a2, a7, a12, a1, a6, a11]
  | s => s

/-- AES MixColumns on one column. -/
def mixColumn : List Nat → List Nat
  | [a, b, c, d] =>
    [xtime a ^^^ (xtime b ^^^ b) ^^^ c ^^^ d,
     a ^^^ xtime b ^^^ (xtime c ^^^ c) ^^^ d,
     a ^^^ b ^^^ xtime c ^^^ (xtime d ^^^ d),
     (xtime a ^^^ a) ^^^ b ^^^ c ^^^ xtime d]
  | col => col

/-- Split a byte list into columns of four. -/
def chunks4 : List Nat → List (List Nat)
  | a :: b :: c :: d :: rest => [a, b, c, d] :: chunks4 rest
  | [] => []
  | l => [l]

/-- AES MixColumns on the full state. -/
def mixColumns (s : List Nat) : List Nat := ((chunks4 s).map mixColumn).flatten

/-- AES RotWord. -/
def rotWord : List Nat → List Nat
  | [a, b, c, d] => [b, c, d, a]
  | w => w

/-- AES SubWord. -/
def subWord (w : List Nat) : List Nat := w.map sbox

/-- One key-schedule round: four fresh words from the previous four. -/
def nextRoundKeyWords : List (List Nat) → Nat → List (List Nat)
  | [w0, w1, w2, w3], rc =>
    let t := zipXor (subWord (rotWord w3)) [rc, 0, 0, 0]
    let n0 := zipXor w0 t
    let n1 := zipXor w1 n0
    let n2 := zipXor w2 n1
    let n3 := zipXor w3 n2
    [n0, n1, n2, n3]
  | ws, _ => ws

/-- The ten AES-128 round constants. -/
def rconList : List Nat := [1, 2, 4, 8, 16, 32, 64, 128, 27, 54]

/-- All eleven groups of four round-key words. -/
def expandRounds : List (List Nat) → List Nat → List (List (List Nat))
  | ws, [] => [ws]
  | ws, rc :: rcs => ws :: expandRounds (nextRoundKeyWords ws rc) rcs

/-- The eleven 16-byte AES-128 round keys. -/
def roundKeys (key : List Nat) : List (List Nat) :=
  (expandRounds (chunks4 key) rconList).map List.flatten

/-- AES AddRoundKey. -/
def addRoundKey (s k : List Nat) : List Nat := zipXor s k

/-- AES-128 block encryption (FIPS-197 figure 5). -/
def encryptBlock (key block : List Nat) : List Nat :=
  match roundKeys key with
  | k0 :: ks =>
    let s0 := addRoundKey block k0
    let sMid := (ks.take 9).foldl
      (fun s k => addRoundKey (mixColumns (shiftRows (subBytes s))) k) s0
    match ks.drop 9 with
    | [kLast] => addRoundKey (shiftRows (subBytes sMid)) kLast
    | _ => sMid
  | [] => block

/-- Split a byte list into 16-byte blocks. -/
def chunks16 : List Nat → List (List Nat)
  | b0 :: b1 :: b2 :: b3 :: b4 :: b5 :: b6 :: b7 ::
    b8 :: b9 :: b10 :: b11 :: b12 :: b13 :: b14 :: b15 :: rest =>
    [b0, b1, b2, b3, b4, b5, b6, b7, b8, b9, b10, b11, b12, b13, b14, b15] :: chunks16 rest
  | [] => []
  | l => [l]

/-- CBC chaining over prepared blocks. -/
def cbcBlocks (key : List Nat) : List Nat → List (List Nat) → List Nat
  | _prev, [] => []
  | prev, b :: bs =>
    let c := encryptBlock key (zipXor prev b)
    c ++ cbcBlocks key c bs

/-- AES-CBC encryption of a byte string under the given key and IV. -/
def aesCbcEncrypt (key iv data : List Nat) : List Nat := cbcBlocks key iv (chunks16 data)

/-- UTF-8 encoding of one character (Python `str.encode()`). -/
def utf8Char (c : Char) : List Nat :=
  let n := c.toNat
  if n < 128 then [n]
  else if n < 2048 then [192 ||| (n >>> 6), 128 ||| (n &&& 63)]
  else if n < 65536 then
    [224 ||| (n >>> 12), 128 ||| ((n >>> 6) &&& 63), 128 ||| (n &&& 63)]
  else
    [240 ||| (n >>> 18), 128 ||| ((n >>> 12) &&& 63), 128 ||| ((n >>> 6) &&& 63), 128 ||| (n &&& 63)]

/-- UTF-8 encoding of a character list. -/
def utf8Bytes (l : List Char) : List Nat := (l.map utf8Char).flatten

/-- The base64 alphabet. -/
def b64Alphabet : List Char :=
  "ABCDEFGHIJKLMNOPQRSTUVWXYZabcdefghijklmnopqrstuvwxyz0123456789+/".toList

/-- One base64 alphabet character. -/
def b64Char (n : Nat) : Char := b64Alphabet.getD n '?'

/-- Standard base64 encoding with padding (Python `base64.b64encode`). -/
def base64Encode : List Nat → List Char
  | [] => []
  | [a] => [b64Char (a >>> 2), b64Char ((a &&& 3) <<< 4), '=', '=']
  | [a, b] =>
    [b64Char (a >>> 2), b64Char (((a &&& 3) <<< 4) ||| (b >>> 4)), b64Char ((b &&& 15) <<< 2), '=']
  | a :: b :: c :: rest =>
    b64Char (a >>> 2) :: b64Char (((a &&& 3) <<< 4) ||| (b >>> 4)) ::
      b64Char (((b &&& 15) <<< 2) ||| (c >>> 6)) :: b64Char (c &&& 63) :: base64Encode rest

/-- The hardcoded key `b"1111111111111111"`: sixteen 0x31 bytes. -/
def aesKey : List Nat := List.replicate 16 49

/-- The hardcoded IV `b"0000000000000000"`: sixteen ASCII `0` bytes (0x30). -/
def aesIv : List Nat := List.replicate 16 48

/-- The padding the source applies before encrypting: `pad_len = 16 - len % 16`
characters, each `chr(pad_len)`, appended to the character sequence.  (On the
ASCII passwords the device accepts this is exactly PKCS7 on the byte level.) -/
def pkcs7PadChars (password : String) : List Char :=
  password.data ++
    List.replicate (16 - password.length % 16) (Char.ofNat (16 - password.length % 16))

/-- The body of `_encrypt_password`, line for line: pad, UTF-8 encode,
AES-128-CBC encrypt with the hardcoded key and IV, base64-encode. -/
def _encrypt_password (password : String) : String :=
  let padLen := 16 - password.length % 16
  let padded := password.data ++ List.replicate padLen (Char.ofNat padLen)
  String.mk (base64Encode (aesCbcEncrypt aesKey aesIv (utf8Bytes padded)))

/-- Claim C1's wording of the encryption: the identical pipeline but with a
16-byte all-zero IV (sixteen 0x00 bytes).  Compared against
`_encrypt_password`, whose IV is the sixteen ASCII `0` bytes 0x30. -/
def c1_claimed_encrypt (password : String) : String :=
  String.mk (base64Encode
    (aesCbcEncrypt aesKey (List.replicate 16 0) (utf8Bytes (pkcs7PadChars password))))

/-! ## `_login` (api.py lines 89-119)

`_login` returns `True` immediately when the session flag is set.
Otherwise it posts the login form to the device root with
`allow_redirects=False` and inspects the device's answer: 302 sets the
flag and returns `True`; anything else returns `False` with the flag left
as it was (necessarily `False` on this path), after checking the body for
the vendor's busy notice, which only selects the log branch.  The model
takes the response the device would give to the POST and records the POST
itself, so that "no network traffic when already authenticated" is a
provable statement. -/

/-- The login form data built by `_login`. -/
structure LoginData where
  action : String
  Frm_Logintoken : String
  username : String
  textpwd : String
  ieversion : String
  logincode : String
  deriving DecidableEq

/-- The form `_login` posts: all six fields of `login_data` in the source. -/
def login_data (username password : String) : LoginData :=
  { action := "login", Frm_Logintoken := "0", username := username,
    textpwd := password, ieversion := "1", logincode := _encrypt_password password }

/-- A login POST as issued by `_login`. -/
structure LoginRequest where
  url : String
  data : LoginData
  allow_redirects : Bool
  deriving DecidableEq

/-- Which return statement of `_login` fired. -/
inductive LoginOutcome
  | alreadyLoggedIn
  | success
  | busy
  | failed
  deriving DecidableEq

/-- Result of one `_login` call: its boolean return value, the session flag
afterwards, the POSTs it put on the wire, and the branch taken. -/
structure LoginRun where
  result : Bool
  flagAfter : Bool
  posts : List LoginRequest
  outcome : LoginOutcome
  deriving DecidableEq

/-- The vendor's "another user is configuring the device" notice. -/
def busyNotice : List Char := "其他用户正在配置".toList

/-- One `_login` call, given the session flag and the response the device
would give to a login POST. -/
def _login (host username password : String) (flag : Bool) (resp : HttpResponse) : LoginRun :=
  if flag then
    { result := true, flagAfter := flag, posts := [], outcome := .alreadyLoggedIn }
  else
    let req : LoginRequest :=
      { url := "http://" ++ host ++ "/", data := login_data username password,
        allow_redirects := false }
    if resp.status = 302 then
      { result := true, flagAfter := true, posts := [req], outcome := .success }
    else if hasSubstr busyNotice resp.body.toList then
      { result := false, flagAfter := flag, posts := [req], outcome := .busy }
    else
      { result := false, flagAfter := flag, posts := [req], outcome := .failed }

/-! ## `_make_request` (api.py lines 59-87)

The method logs in (raising on `False`), sends the request, and — only
when the response has status 200 and its body contains the login-form
marker — clears the flag, logs in again (raising on `False`), resends the
request once and returns that second response unconditionally.  The model
is a pure function of the starting flag and of the four responses the
network could serve: to the first login POST (consulted only if the flag
is down), to the request, to the re-login POST, and to the resend. -/

/-- The marker showing the device answered with its login page. -/
def loginFormMarker : List Char := "<form name=\"fLogin\" id=\"fLogin\"".toList

/-- The two `ZTEModemAPIError` raises inside `_make_request`. -/
inductive ApiErr
  | loginFailed
  | reloginFailed
  deriving DecidableEq

/-- The responses the network would deliver to each exchange `_make_request`
can perform. -/
structure RequestEnv where
  loginResp : HttpResponse
  firstResp : HttpResponse
  reloginResp : HttpResponse
  retryResp : HttpResponse
  deriving DecidableEq

/-- What one `_make_request` call did: its outcome, the session flag after,
how many times the request itself was sent, and how many login POSTs went
on the wire. -/
structure RequestOutcome where
  result : Except ApiErr HttpResponse
  flagAfter : Bool
  sends : Nat
  loginPosts : Nat

/-- One `_make_request` call, mirroring the source's control flow. -/
def _make_request (host username password : String) (flag : Bool) (env : RequestEnv) :
    RequestOutcome :=
  let l1 := _login host username password flag env.loginResp
  if l1.result = false then
    { result := .error .loginFailed, flagAfter := l1.flagAfter, sends := 0,
      loginPosts := l1.posts.length }
  else if env.firstResp.status = 200 then
    if hasSubstr loginFormMarker env.firstResp.body.toList then
      let l2 := _login host username password false env.reloginResp
      if l2.result = false then
        { result := .error .reloginFailed, flagAfter := l2.flagAfter, sends := 1,
          loginPosts := l1.posts.length + l2.posts.length }
      else
        { result := .ok env.retryResp, flagAfter := l2.flagAfter, sends := 2,
          loginPosts := l1.posts.length + l2.posts.length }
    else
      { result := .ok env.firstResp, flagAfter := l1.flagAfter, sends := 1,
        loginPosts := l1.posts.length }
  else
    { result := .ok env.firstResp, flagAfter := l1.flagAfter, sends := 1,
      loginPosts := l1.posts.length }

/-- Whether a response is the session-expiry case of claim C2: status 200
and the login-form marker in the body. -/
def isExpiryResp (r : HttpResponse) : Bool :=
  r.status == 200 && hasSubstr loginFormMarker r.body.toList

/-- Claim C2's description of the request operation, written from its words:
ensure login and fail with an authentication error on `False`; if and only
if the response is the expiry case, clear the flag, log in again (failing
on `False`), resend exactly once and return the retried response as-is;
otherwise return the first response. -/
def c2_claimed_request (host username password : String) (flag : Bool) (env : RequestEnv) :
    RequestOutcome :=
  let ensure := _login host username password flag env.loginResp
  if ensure.result = false then
    { result := .error .loginFailed, flagAfter := ensure.flagAfter, sends := 0,
      loginPosts := ensure.posts.length }
  else if isExpiryResp env.firstResp then
    let again := _login host username password false env.reloginResp
    if again.result = false then
      { result := .error .reloginFailed, flagAfter := again.flagAfter, sends := 1,
        loginPosts := ensure.posts.length + again.posts.length }
    else
      { result := .ok env.retryResp, flagAfter := again.flagAfter, sends := 2,
        loginPosts := ensure.posts.length + again.posts.length }
  else
    { result := .ok env.firstResp, flagAfter := ensure.flagAfter, sends := 1,
      loginPosts := ensure.posts.length }

/-! ## `get_device_info` (api.py lines 141-167) -/

/-- Python `str.strip()` on ASCII whitespace. -/
def pyStrip (l : List Char) : List Char :=
  ((l.dropWhile isPySpace).reverse.dropWhile isPySpace).reverse

/-- Python `html.unescape`, restricted to the named entities that occur on
ASCII device pages (`&amp; &lt; &gt; &quot; &apos; &nbsp;`); the full HTML5
entity table and numeric references are outside the model, and text without
a recognized entity passes through unchanged, as in the source library. -/
def htmlUnescape : List Char → List Char
  | '&' :: 'a' :: 'm' :: 'p' :: ';' :: rest => '&' :: htmlUnescape rest
  | '&' :: 'l' :: 't' :: ';' :: rest => '<' :: htmlUnescape rest
  | '&' :: 'g' :: 't' :: ';' :: rest => '>' :: htmlUnescape rest
  | '&' :: 'q' :: 'u' :: 'o' :: 't' :: ';' :: rest => '"' :: htmlUnescape rest
  | '&' :: 'a' :: 'p' :: 'o' :: 's' :: ';' :: rest => '\'' :: htmlUnescape rest
  | '&' :: 'n' :: 'b' :: 's' :: 'p' :: ';' :: rest => Char.ofNat 160 :: htmlUnescape rest
  | c :: rest => c :: htmlUnescape rest
  | [] => []

/-- Matcher for `<td id="NAME"[^>]*>([^<]+)</td>` at a position. -/
def matchTdIdAt (idName : List Char) (l : List Char) : Option (List Char × List Char) := do
  let r1 ← parseLit ("<td id=\"".toList ++ idName ++ "\"".toList) l
  let (_attrs, r2) ← parseToGt r1
  let (g, r3) ← parseUntilKeep '<' r2
  let r4 ← parseLit "</td>".toList r3
  pure (g, r4)

/-- One field probe of `get_device_info`: `re.search` the id pattern, then
`html.unescape(match.group(1).strip())`. -/
def devField (idName : String) (body : List Char) : Option String :=
  (reSearch (matchTdIdAt idName.toList) body).map
    (fun g => String.mk (htmlUnescape (pyStrip g)))

/-- The six independently-optional device-info fields. -/
structure DeviceInfo where
  carrier_name : Option String
  model_name : Option String
  serial_number : Option String
  hardware_ver : Option String
  software_ver : Option String
  boot_ver : Option String
  deriving DecidableEq

/-- Truthiness of the `device_info` dict: no key was inserted. -/
def DeviceInfo.isBlank (d : DeviceInfo) : Bool :=
  d.carrier_name.isNone && d.model_name.isNone && d.serial_number.isNone &&
    d.hardware_ver.isNone && d.software_ver.isNone && d.boot_ver.isNone

/-- `get_device_info` on the response to its GET: `None` unless status 200,
the six probes, and `None` again when the dict stayed empty. -/
def get_device_info (resp : HttpResponse) : Option DeviceInfo :=
  if resp.status ≠ 200 then none
  else
    let b := resp.body.toList
    let d : DeviceInfo :=
      { carrier_name := devField "Frm_CarrierName" b
        model_name := devField "Frm_ModelName" b
        serial_number := devField "Frm_SerialNumber" b
        hardware_ver := devField "Frm_HardwareVer" b
        software_ver := devField "Frm_SoftwareVer" b
        boot_ver := devField "Frm_BootVer" b }
    if d.isBlank then none else some d

/-! ## `get_optical_info` (api.py lines 169-217)

Five JS variables matched by `var NAME\s+=\s+"([^"]+)"`, each fed to
`int()` (which raises `ValueError` on a non-numeric group — the source
does not catch it, so the model is `Except`-valued), scaled by a fixed
divisor and rounded with Python `round`; plus the loid state matched by
`Transfer_meaning\('LoidState','(\d+)'\)`.  Rounding is modelled on the
exact rational value with round-half-to-even, which is what Python's
`round` computes on the nearest-double of these decimal quantities except
for values astride a representation tie; the device's integer raws scale
to exactly-representable results in all claimed cases. -/

/-- Matcher for `var NAME\s+=\s+"([^"]+)"` at a position. -/
def matchVarAt (name : List Char) (l : List Char) : Option (List Char × List Char) := do
  let r1 ← parseLit ("var ".toList ++ name) l
  let r2 ← parseWs1 r1
  let r3 ← parseLit ['='] r2
  let r4 ← parseWs1 r3
  let r5 ← parseLit ['"'] r4
  let (g, r6) ← parseUntilCh '"' r5
  pure (g, r6)

/-- Matcher for `Transfer_meaning\('LoidState','(\d+)'\)` at a position. -/
def matchLoidAt (l : List Char) : Option (Nat × List Char) := do
  let r1 ← parseLit "Transfer_meaning('LoidState','".toList l
  let (g, r2) ← parseDigits r1
  let r3 ← parseLit "')".toList r2
  pure (digitsVal g, r3)

/-- Round half to even of the fraction a/b, for positive b. -/
def roundHalfEven (a b : Int) : Int :=
  let q := Int.fdiv a b
  let r := a - q * b
  if 2 * r < b then q
  else if b < 2 * r then q + 1
  else if q % 2 = 0 then q else q + 1

/-- Python `round(raw / den, prec)` on the exact rational value. -/
def scaleRound (raw den : Int) (prec : Nat) : ℚ :=
  (roundHalfEven (raw * (10 : Int) ^ prec) den : ℚ) / (10 : ℚ) ^ prec

/-- The optical-info record; every field is optional, as in the source dict. -/
structure OpticalInfo where
  rx_power : Option ℚ
  tx_power : Option ℚ
  current : Option ℚ
  voltage : Option ℚ
  temperature : Option ℚ
  connected : Option Bool
  loid_state : Option Nat
  deriving DecidableEq

/-- Truthiness of the `optical_info` dict: no key was inserted. -/
def OpticalInfo.isBlank (o : OpticalInfo) : Bool :=
  o.rx_power.isNone && o.tx_power.isNone && o.current.isNone && o.voltage.isNone &&
    o.temperature.isNone && o.connected.isNone && o.loid_state.isNone

/-- The uncaught Python exception a scraping function can raise. -/
inductive PyErr
  | valueError
  deriving DecidableEq

/-- One optical var probe: search the pattern, `int()` the group. -/
def optField (name : String) (body : List Char) : Except PyErr (Option Int) :=
  match reSearch (matchVarAt name.toList) body with
  | none => .ok none
  | some g =>
    match pyIntDec? g with
    | some n => .ok (some n)
    | none => .error .valueError

/-- `get_optical_info` on the response to its GET. -/
def get_optical_info (resp : HttpResponse) : Except PyErr (Option OpticalInfo) :=
  if resp.status ≠ 200 then .ok none
  else do
    let body := resp.body.toList
    let rx ← optField "RxPower" body
    let tx ← optField "TxPower" body
    let cur ← optField "Current" body
    let vol ← optField "Volt" body
    let tem ← optField "Temp" body
    let loid := reSearch matchLoidAt body
    let info : OpticalInfo :=
      { rx_power := rx.map (fun n => scaleRound n 10000 2)
        tx_power := tx.map (fun n => scaleRound n 10000 2)
        current := cur.map (fun n => scaleRound n 1000 4)
        voltage := vol.map (fun n => scaleRound n 1000000 4)
        temperature := tem.map (fun n => scaleRound n 1000 4)
        connected := loid.map (fun s => s == 1)
        loid_state := loid }
    if info.isBlank then pure none else pure (some info)

/-! ## `get_lan_info` (api.py lines 219-279) -/

/-- The shared cell prefix `<td class="tdright">`. -/
def tdOpen : List Char := "<td class=\"tdright\">".toList

/-- The cell suffix `</td>`. -/
def tdClose : List Char := "</td>".toList

/-- Matcher for `<td class="tdright">(\d+)/(\d+)</td>` at a position. -/
def matchPairAt (l : List Char) : Option ((Nat × Nat) × List Char) := do
  let r1 ← parseLit tdOpen l
  let (g1, r2) ← parseDigits r1
  let r3 ← parseLit ['/'] r2
  let (g2, r4) ← parseDigits r3
  let r5 ← parseLit tdClose r4
  pure ((digitsVal g1, digitsVal g2), r5)

/-- Matcher for `<td class="tdright">(\d+)</td>` at a position. -/
def matchLoneAt (l : List Char) : Option (Nat × List Char) := do
  let r1 ← parseLit tdOpen l
  let (g, r2) ← parseDigits r1
  let r3 ← parseLit tdClose r2
  pure (digitsVal g, r3)

/-- Matcher for `<td class="tdright">(LAN\d+)</td>` at a position. -/
def matchNameAt (l : List Char) : Option (String × List Char) := do
  let r1 ← parseLit ("<td class=\"tdright\">LAN".toList) l
  let (g, r2) ← parseDigits r1
  let r3 ← parseLit tdClose r2
  pure (String.mk ('L' :: 'A' :: 'N' :: g), r3)

/-- Matcher for the localized status cell `<td class="tdright">(已连接|未连接)</td>`. -/
def matchStatusAt (l : List Char) : Option (String × List Char) := do
  let r1 ← parseLit tdOpen l
  match parseLit "已连接".toList r1 with
  | some r2 => do
    let r3 ← parseLit tdClose r2
    pure ("已连接", r3)
  | none => do
    let r2 ← parseLit "未连接".toList r1
    let r3 ← parseLit tdClose r2
    pure ("未连接", r3)

/-- Matcher for `<table[^>]*class="infor"[^>]*>(.*?)</table>` at a position:
`class="infor"` must sit before the first `>` after `<table`, and the group
runs reluctantly to the first `</table>`. -/
def matchTableAt (l : List Char) : Option (List Char × List Char) := do
  let r1 ← parseLit "<table".toList l
  let (attrs, r2) ← parseToGt r1
  if hasSubstr "class=\"infor\"".toList attrs then
    let (body, r3) ← splitAtLit "</table>".toList r2
    pure (body, r3)
  else none

/-- One LAN-port record; every field optional, as in the source dict. -/
structure LanPort where
  name : Option String
  connected : Option Bool
  rx_packets : Option Nat
  rx_bytes : Option Nat
  tx_packets : Option Nat
  tx_bytes : Option Nat
  error_frames : Option Nat
  deriving DecidableEq

/-- Truthiness of the `port_info` dict: no key was inserted. -/
def LanPort.isBlank (p : LanPort) : Bool :=
  p.name.isNone && p.connected.isNone && p.rx_packets.isNone && p.rx_bytes.isNone &&
    p.tx_packets.isNone && p.tx_bytes.isNone && p.error_frames.isNone

/-- The per-table extraction of `get_lan_info`: name probe, status probe,
first packets/bytes pair for rx, `findall[1]` (when two or more pairs) for
tx, and — after an `re.search` guard — the last lone numeric cell for the
error-frame count. -/
def parseLanTable (t : List Char) : LanPort :=
  let rx := reSearch matchPairAt t
  let pairs := reFindall matchPairAt t
  { name := reSearch matchNameAt t
    connected := (reSearch matchStatusAt t).map (fun s => s == "已连接")
    rx_packets := rx.map Prod.fst
    rx_bytes := rx.map Prod.snd
    tx_packets := if 2 ≤ pairs.length then (pairs[1]?).map Prod.fst else none
    tx_bytes := if 2 ≤ pairs.length then (pairs[1]?).map Prod.snd else none
    error_frames :=
      match reSearch matchLoneAt t with
      | some _ => (reFindall matchLoneAt t).getLast?
      | none => none }

/-- `get_lan_info` on the response to its GET: `None` unless status 200, one
record per `infor` table with blank records dropped, `None` when nothing
was collected. -/
def get_lan_info (resp : HttpResponse) : Option (List LanPort) :=
  if resp.status ≠ 200 then none
  else
    let tables := reFindall matchTableAt resp.body.toList
    let ports := (tables.map parseLanTable).filter (fun p => !p.isBlank)
    if ports.isEmpty then none else some ports

/-! ## `restart_device` (api.py lines 304-345) -/

/-- Matcher for `var session_token = "([^"]+)"` at a position. -/
def matchTokenAt (l : List Char) : Option (List Char × List Char) := do
  let r1 ← parseLit "var session_token = \"".toList l
  let (g, r2) ← parseUntilCh '"' r1
  pure (g, r2)

/-- Matcher for `Transfer_meaning\('IF_ERRORTYPE','([^']+)'\)` at a position. -/
def matchErrTypeAt (l : List Char) : Option (List Char × List Char) := do
  let r1 ← parseLit "Transfer_meaning('IF_ERRORTYPE','".toList l
  let (g, r2) ← parseUntilCh '\'' r1
  let r3 ← parseLit [')'] r2
  pure (g, r3)

/-- The fixed-shape restart POST body. -/
structure RestartData where
  IF_ACTION : String
  IF_ERRORSTR : String
  IF_ERRORPARAM : String
  IF_ERRORTYPE : String
  flag : String
  _SESSION_TOKEN : String
  deriving DecidableEq

/-- `restart_device`, given the response to the harvesting GET and the
response the network would give to the restart POST.  Returns the POST it
issued (if any) and the boolean result.  The GET must be 200, the session
token present and at least one escaped error-type code present, else the
method aborts with `False` before any POST; otherwise it decodes the last
code, posts, and succeeds exactly on a 200 POST status. -/
def restart_device (getResp postResp : HttpResponse) : Option RestartData × Bool :=
  if getResp.status ≠ 200 then (none, false)
  else
    let body := getResp.body.toList
    match reSearch matchTokenAt body with
    | none => (none, false)
    | some tok =>
      match (reFindall matchErrTypeAt body).getLast? with
      | none => (none, false)
      | some raw =>
        let data : RestartData :=
          { IF_ACTION := "devrestart", IF_ERRORSTR := "SUCC", IF_ERRORPARAM := "SUCC",
            IF_ERRORTYPE := String.mk (parseErrorType raw), flag := "1",
            _SESSION_TOKEN := String.mk tok }
        (some data, postResp.status == 200)

/-! ## `_async_update_data` (coordinator.py lines 50-60) -/

/-- The optical dict with nothing in it. -/
def emptyOptical : OpticalInfo :=
  { rx_power := none, tx_power := none, current := none, voltage := none,
    temperature := none, connected := none, loid_state := none }

/-- The coordinator's fetches, in the order the method awaits them. -/
inductive FetchCall
  | optical
  | lan
  deriving DecidableEq

/-- The snapshot the coordinator returns; both fields are present, never null. -/
structure Snapshot where
  optical_info : OpticalInfo
  lan_info : List LanPort
  deriving DecidableEq

/-- `_async_update_data`, given what the two client getters returned:
`optical_info or {}` and `lan_info or []` (Python `or` also replaces an
empty dict or list by the empty default, which is the same value), plus
the ordered list of fetches performed. -/
def _async_update_data (opt : Option OpticalInfo) (lan : Option (List LanPort)) :
    Snapshot × List FetchCall :=
  ({ optical_info := match opt with | some o => o | none => emptyOptical
     lan_info := match lan with | some l => l | none => [] },
   [FetchCall.optical, FetchCall.lan])

/-! ## Concrete pages used as witnesses -/

/-- A LAN status page with one port table: the worked example of the spec. -/
def lanPageEx : String :=
  "<table class=\"infor\"><tr><td class=\"tdright\">LAN1</td><td class=\"tdright\">已连接</td><td class=\"tdright\">100/2000</td><td class=\"tdright\">50/900</td><td class=\"tdright\">3</td></tr></table>"

/-- The LAN record the example page extracts to. -/
def lanPortEx : LanPort :=
  { name := some "LAN1", connected := some true, rx_packets := some 100,
    rx_bytes := some 2000, tx_packets := some 50, tx_bytes := some 900,
    error_frames := some 3 }

/-- An optical status page carrying the spec's example raw values. -/
def opticalPageEx : String :=
  "<script>var RxPower = \"1234500\";var TxPower = \"-201000\";var Current = \"12000\";var Volt = \"3300000\";var Temp = \"45000\";Transfer_meaning('LoidState','1');</script>"

/-- The optical record the example page extracts to. -/
def opticalInfoEx : OpticalInfo :=
  { rx_power := some (scaleRound 1234500 10000 2), tx_power := some (scaleRound (-201000) 10000 2),
    current := some (scaleRound 12000 1000 4), voltage := some (scaleRound 3300000 1000000 4),
    temperature := some (scaleRound 45000 1000 4), connected := some true, loid_state := some 1 }

/-- A device-info page with two of the six fields, one with an HTML entity. -/
def devPageEx : String :=
  "<td id=\"Frm_CarrierName\">ACME &amp; Co</td><td id=\"Frm_ModelName\" class=\"x\"> SG350 </td>"

/-- A restart status page with a session token and two escaped error-type codes. -/
def restartPageEx : String :=
  "<script>var session_token = \"TOK123\";Transfer_meaning('IF_ERRORTYPE','\\x30');Transfer_meaning('IF_ERRORTYPE','\\x21\\x22');</script>"

/-- Decidable equality for `Except`, used to evaluate witnesses. -/
instance {α β : Type} [DecidableEq α] [DecidableEq β] : DecidableEq (Except α β) := fun a b =>
  match a, b with
  | .ok x, .ok y => decidable_of_iff (x = y) (by simp)
  | .error x, .error y => decidable_of_iff (x = y) (by simp)
  | .ok _, .error _ => isFalse (by simp)
  | .error _, .ok _ => isFalse (by simp)

/-! ## Helper lemmas -/

/-- Unfolding `parseErrorType` on a well-formed escape. -/
theorem parseErrorType_esc_some (c1 c2 : Char) (rest : List Char) (v : Int)
    (h : pyIntHex? [c1, c2] = some v) :
    parseErrorType ('\\' :: 'x' :: c1 :: c2 :: rest) = intToChars v ++ parseErrorType rest := by
  simp only [parseErrorType, h]

/-- Unfolding `parseErrorType` on a malformed escape. -/
theorem parseErrorType_esc_none (c1 c2 : Char) (rest : List Char)
    (h : pyIntHex? [c1, c2] = none) :
    parseErrorType ('\\' :: 'x' :: c1 :: c2 :: rest) =
      '\\' :: 'x' :: parseErrorType (c1 :: c2 :: rest) := by
  simp only [parseErrorType, h]

/-- Unfolding `parseErrorType` on a character that opens no escape. -/
theorem parseErrorType_cons (c : Char) (rest : List Char)
    (h : ¬(c = '\\' ∧ rest.head? = some 'x')) :
    parseErrorType (c :: rest) = c :: parseErrorType rest := by
  rw [parseErrorType.eq_def]
  split
  · rename_i c1 c2 r heq
    simp only [List.cons.injEq] at heq
    exact absurd ⟨heq.1, by simp [heq.2]⟩ h
  · rename_i c1 heq
    simp only [List.cons.injEq] at heq
    exact absurd ⟨heq.1, by simp [heq.2]⟩ h
  · rename_i heq
    simp only [List.cons.injEq] at heq
    exact absurd ⟨heq.1, by simp [heq.2]⟩ h
  · rename_i c' r' _ _ _ heq
    injection heq with e1 e2
    subst e1; subst e2; rfl
  · rename_i heq; exact absurd heq (by simp)

/-- A character with a hex value is neither whitespace nor a sign. -/
theorem hexDigit_plain (c : Char) (v : Nat) (h : hexDigitVal? c = some v) :
    isPySpace c = false ∧ c ≠ '+' ∧ c ≠ '-' ∧ c ≠ '_' := by
  refine ⟨?_, ?_, ?_, ?_⟩
  · by_contra hs
    simp only [Bool.not_eq_false, isPySpace, Bool.or_eq_true, beq_iff_eq] at hs
    rcases hs with ((((h1 | h1) | h1) | h1) | h1) | h1 <;> subst h1 <;> simp [hexDigitVal?] at h
  · rintro rfl; simp [hexDigitVal?] at h
  · rintro rfl; simp [hexDigitVal?] at h
  · rintro rfl; simp [hexDigitVal?] at h

/-- `pyDigitsLoop` on a single remaining digit. -/
theorem pyDigitsLoop_single (dv : Char → Option Nat) (base acc : Nat) (c : Char) (v : Nat)
    (hc : c ≠ '_') (hv : dv c = some v) :
    pyDigitsLoop dv base acc [c] = some (acc * base + v) := by
  rw [pyDigitsLoop.eq_def]
  split
  · rename_i heq; simp at heq
  · rename_i heq
    simp only [List.cons.injEq] at heq
    exact absurd heq.1 hc
  · rename_i heq; simp at heq
  · rename_i heq
    simp only [List.cons.injEq] at heq
    obtain ⟨he, hr⟩ := heq
    subst he
    rw [← hr, hv]
    simp [pyDigitsLoop]

/-- Python `int(s, 16)` on exactly two hex digits is their two-digit value. -/
theorem pyIntHex_two_digits (c1 c2 : Char) (v1 v2 : Nat)
    (h1 : hexDigitVal? c1 = some v1) (h2 : hexDigitVal? c2 = some v2) :
    pyIntHex? [c1, c2] = some (Int.ofNat (v1 * 16 + v2)) := by
  obtain ⟨hs1, hp1, hm1, hu1⟩ := hexDigit_plain c1 v1 h1
  obtain ⟨hs2, hp2, hm2, hu2⟩ := hexDigit_plain c2 v2 h2
  have ht : ((([c1, c2] : List Char).dropWhile isPySpace).reverse.dropWhile isPySpace).reverse
      = [c1, c2] := by
    simp [List.dropWhile_cons, hs1, hs2]
  unfold pyIntHex? pyIntCore
  rw [ht]
  split
  · rename_i heq
    simp only [List.cons.injEq] at heq
    exact absurd heq.1 hp1
  · rename_i heq
    simp only [List.cons.injEq] at heq
    exact absurd heq.1 hm1
  · rename_i heq
    simp only [List.cons.injEq] at heq
    obtain ⟨he, hr⟩ := heq
    subst he
    subst hr
    simp [h1, pyDigitsLoop_single hexDigitVal? 16 v1 c2 v2 hu2 h2]
  · rename_i heq; exact List.noConfusion heq

/-- At equal fuel, the first `findall` element is the `search` result. -/
theorem searchAux_eq_head {G : Type} (m : List Char → Option (G × List Char)) :
    ∀ (fuel : Nat) (l : List Char), searchAux m fuel l = (findallAux m fuel l).head? := by
  intro fuel
  induction fuel with
  | zero => intro l; rfl
  | succ n ih =>
    intro l
    cases hm : m l with
    | some gr =>
      obtain ⟨g, r⟩ := gr
      simp [searchAux, findallAux, hm]
    | none =>
      cases l with
      | nil => simp [searchAux, findallAux, hm]
      | cons c tl => simp [searchAux, findallAux, hm, ih]

/-- `re.search` returns the first `re.findall` element. -/
theorem reSearch_eq_head {G : Type} (m : List Char → Option (G × List Char)) (l : List Char) :
    reSearch m l = (reFindall m l).head? :=
  searchAux_eq_head m (l.length + 1) l

/-! ## Claim theorems -/

/-- Claim C3, counterexample: on the input `\x\x21` the escape at position 0
is malformed — its two following characters `\x` do not parse as hex — yet
the decoder does not pass those two characters through unchanged and does not
preserve the input literally from that position: it outputs `\x33`, because
scanning resumes at the offending characters, which begin a new well-formed
escape `\x21` that is decoded to `33`. -/
theorem c3_literal_passthrough_refuted :
    pyIntHex? ['\\', 'x'] = none
    ∧ parseErrorType "\\x\\x21".toList = "\\x33".toList
    ∧ parseErrorType "\\x\\x21".toList ≠ "\\x\\x21".toList :=
  ⟨by decide, by decide, by decide⟩

/-- Claim C3, amended: `_parse_error_type` scans left to right; an escape
`\xHH` whose two-character slice parses as hex (in particular two hex
digits, decoded to their two-digit value) is replaced by the decimal
rendering of the value; on a malformed escape the backslash and the `x`
pass through unchanged and scanning resumes at the two offending
characters — so they pass through unchanged exactly when they do not
themselves begin a new escape; any character that opens no escape passes
through; `\x21\x22` decodes to `3334`. -/
theorem c3_parse_error_type_characterization :
    (∀ (c1 c2 : Char) (rest : List Char) (v : Int), pyIntHex? [c1, c2] = some v →
      parseErrorType ('\\' :: 'x' :: c1 :: c2 :: rest) = intToChars v ++ parseErrorType rest)
    ∧ (∀ (c1 c2 : Char) (v1 v2 : Nat), hexDigitVal? c1 = some v1 → hexDigitVal? c2 = some v2 →
      pyIntHex? [c1, c2] = some (Int.ofNat (v1 * 16 + v2)))
    ∧ (∀ (c1 c2 : Char) (rest : List Char), pyIntHex? [c1, c2] = none →
      parseErrorType ('\\' :: 'x' :: c1 :: c2 :: rest) =
        '\\' :: 'x' :: parseErrorType (c1 :: c2 :: rest))
    ∧ (∀ (c : Char) (rest : List Char), ¬(c = '\\' ∧ rest.head? = some 'x') →
      parseErrorType (c :: rest) = c :: parseErrorType rest)
    ∧ parseErrorType "\\x21\\x22".toList = "3334".toList :=
  ⟨parseErrorType_esc_some, pyIntHex_two_digits, parseErrorType_esc_none,
   parseErrorType_cons, by decide⟩

/-- Witness for the amended C3 theorem at concrete escapes. -/
theorem c3_parse_error_type_characterization_witness :
    parseErrorType ('\\' :: 'x' :: '2' :: '1' :: []) = intToChars 33 ++ parseErrorType []
    ∧ pyIntHex? ['2', '1'] = some (Int.ofNat (2 * 16 + 1))
    ∧ parseErrorType ('\\' :: 'x' :: 'Z' :: 'Z' :: []) = '\\' :: 'x' :: parseErrorType ('Z' :: 'Z' :: [])
    ∧ parseErrorType ('a' :: "bc".toList) = 'a' :: parseErrorType "bc".toList :=
  ⟨c3_parse_error_type_characterization.1 '2' '1' [] 33 (by decide),
   c3_parse_error_type_characterization.2.1 '2' '1' 2 1 (by decide) (by decide),
   c3_parse_error_type_characterization.2.2.1 'Z' 'Z' [] (by decide),
   c3_parse_error_type_characterization.2.2.2.1 'a' "bc".toList (by decide)⟩

/-- Claim C10: on any string with no occurrence of the substring `\x` the
decoder is the identity, character for character.  (The only exception the
loop body can raise, the hex parse's `ValueError`, is caught in the source;
the model is correspondingly a total, exception-free function.) -/
theorem c10_identity_on_escape_free (l : List Char) (h : hasEsc l = false) :
    parseErrorType l = l := by
  induction l using parseErrorType.induct with
  | case1 c1 c2 rest v hv ih => simp [hasEsc] at h
  | case2 c1 c2 rest hv ih => simp [hasEsc] at h
  | case3 c1 v hv => simp [hasEsc] at h
  | case4 c1 hv => simp [hasEsc] at h
  | case5 => simp [hasEsc] at h
  | case6 c rest hne1 hne2 hne3 ih =>
    have hcr : ¬(c = '\\' ∧ rest.head? = some 'x') := by
      rintro ⟨hc, hx⟩
      subst hc
      rcases rest with _ | ⟨c0, tl⟩
      · simp at hx
      · simp only [List.head?_cons, Option.some.injEq] at hx
        subst hx
        rcases tl with _ | ⟨d1, tl2⟩
        · exact hne3 rfl rfl
        · rcases tl2 with _ | ⟨d2, tl3⟩
          · exact hne2 d1 rfl rfl
          · exact hne1 d1 d2 tl3 rfl rfl
    have hr : hasEsc rest = false := by
      rw [hasEsc.eq_def] at h
      revert h; split <;> simp_all
    rw [parseErrorType_cons c rest hcr, ih hr]
  | case7 => rfl

/-- Witness for C10 at a concrete escape-free string. -/
theorem c10_identity_on_escape_free_witness :
    hasEsc "action=devrestart".toList = false
    ∧ parseErrorType "action=devrestart".toList = "action=devrestart".toList :=
  ⟨by decide, c10_identity_on_escape_free _ (by decide)⟩

set_option maxRecDepth 10000 in
/-- Claim C1, counterexample: the hardcoded IV is `b"0000000000000000"` —
sixteen ASCII `0` bytes, 0x30 — not sixteen zero bytes, so at the password
`admin` the value `_encrypt_password` computes differs from the claimed
AES-128-CBC encryption under a 16-byte all-zero IV (same key, same padding,
same base64). -/
theorem c1_zero_iv_refuted : _encrypt_password "admin" ≠ c1_claimed_encrypt "admin" := by
  decide

/-- Claim C1, amended: for every password, `_encrypt_password` returns the
base64 encoding of the AES-128-CBC encryption of the UTF-8 bytes of the
PKCS7-style padded password under the hardcoded 16-byte key, with the IV
being the sixteen ASCII `0` bytes 0x30 (not the all-zero IV); and the login
form places this value in the `logincode` field alongside the plaintext
password in `textpwd`. -/
theorem c1_encrypt_password_characterization (host username password : String)
    (resp : HttpResponse) :
    _encrypt_password password
      = String.mk (base64Encode (aesCbcEncrypt aesKey aesIv (utf8Bytes (pkcs7PadChars password))))
    ∧ aesIv = List.replicate 16 '0'.toNat
    ∧ aesIv ≠ List.replicate 16 0
    ∧ (login_data username password).logincode = _encrypt_password password
    ∧ (login_data username password).textpwd = password
    ∧ (_login host username password false resp).posts.map LoginRequest.data
        = [login_data username password] := by
  refine ⟨rfl, rfl, by decide, rfl, rfl, ?_⟩
  unfold _login
  split
  · rename_i hfl; exact absurd hfl (by simp)
  · split
    · rfl
    · split
      · rfl
      · rfl

/-- Claim C2: `_make_request` behaves exactly as claimed — it first ensures
login and fails the whole operation with an authentication error when login
returns false; then, if and only if the response has status 200 and its body
contains the login-form marker, it clears the flag, logs in again (failing
with an authentication error when that returns false), resends exactly once
and returns the retried response as-is, marker or not; otherwise it returns
the first response.  In particular at most one resend ever occurs. -/
theorem c2_make_request_matches_claim (host username password : String) (flag : Bool)
    (env : RequestEnv) :
    _make_request host username password flag env
      = c2_claimed_request host username password flag env
    ∧ (_make_request host username password flag env).sends ≤ 2 := by
  constructor
  · unfold _make_request c2_claimed_request
    by_cases h1 : (_login host username password flag env.loginResp).result = false
    · simp [h1]
    · by_cases h2 : env.firstResp.status = 200
      · by_cases h3 : hasSubstr loginFormMarker env.firstResp.body.data = true
        · have hx : isExpiryResp env.firstResp = true := by
            simp [isExpiryResp, h2, h3]
          simp [h1, h2, h3, hx]
        · have hx : isExpiryResp env.firstResp = false := by
            simp [isExpiryResp, h2, h3]
          simp [h1, h2, h3, hx]
      · have hx : isExpiryResp env.firstResp = false := by
          simp [isExpiryResp, h2]
        simp [h1, h2, hx]
  · unfold _make_request
    by_cases h1 : (_login host username password flag env.loginResp).result = false <;>
      by_cases h2 : env.firstResp.status = 200 <;>
      by_cases h3 : hasSubstr loginFormMarker env.firstResp.body.data = true <;>
      by_cases h4 : (_login host username password false env.reloginResp).result = false <;>
      simp [h1, h2, h3, h4]

/-- Claim C6: `_login` returns true immediately with no network traffic when
the flag is already set; otherwise it issues exactly one POST of the login
form without following redirects, and returns true — setting the flag — 
exactly when the response status is 302; on any non-302 response whose body
carries the busy notice it takes the distinct busy branch and returns
false; every failed login leaves the flag false. -/
theorem c6_login_behaviour (host username password : String) (flag : Bool)
    (resp : HttpResponse) :
    (flag = true →
      _login host username password flag resp
        = { result := true, flagAfter := true, posts := [], outcome := .alreadyLoggedIn })
    ∧ (flag = false →
        (_login host username password flag resp).posts
          = [{ url := "http://" ++ host ++ "/", data := login_data username password,
               allow_redirects := false }]
        ∧ ((_login host username password flag resp).result = true ↔ resp.status = 302))
    ∧ ((_login host username password flag resp).result = true →
        (_login host username password flag resp).flagAfter = true)
    ∧ ((_login host username password flag resp).result = false →
        (_login host username password flag resp).flagAfter = false)
    ∧ (flag = false → resp.status ≠ 302 →
        hasSubstr busyNotice resp.body.data = true →
        (_login host username password flag resp).outcome = .busy
        ∧ (_login host username password flag resp).result = false) := by
  cases flag <;>
    by_cases h2 : resp.status = 302 <;>
    by_cases h3 : hasSubstr busyNotice resp.body.data = true <;>
    simp [_login, h2, h3]

/-- Witness for C6: a 302 login succeeds; a 200 busy page takes the busy branch. -/
theorem c6_login_behaviour_witness :
    ((_login "h" "u" "p" false { status := 302, body := "" }).result = true
      ↔ (302 : Nat) = 302)
    ∧ (_login "h" "u" "p" false { status := 200, body := "其他用户正在配置" }).outcome
        = LoginOutcome.busy :=
  ⟨((c6_login_behaviour "h" "u" "p" false { status := 302, body := "" }).2.1 rfl).2,
   ((c6_login_behaviour "h" "u" "p" false
      { status := 200, body := "其他用户正在配置" }).2.2.2.2 rfl (by decide) (by decide)).1⟩

/-- Claim C7: `restart_device` is two-phase.  It returns false with no POST
issued when the GET is non-200, when the session token is absent, or when no
error-type code is found; otherwise it POSTs the fixed-shape command carrying
the harvested token and the decoding of the last harvested code, and returns
true exactly when the POST status is 200, never inspecting the POST body. -/
theorem c7_restart_two_phase (getResp postResp : HttpResponse) :
    (getResp.status ≠ 200 → restart_device getResp postResp = (none, false))
    ∧ (reSearch matchTokenAt getResp.body.toList = none →
        restart_device getResp postResp = (none, false))
    ∧ (reFindall matchErrTypeAt getResp.body.toList = [] →
        restart_device getResp postResp = (none, false))
    ∧ (∀ (tok raw : List Char), getResp.status = 200 →
        reSearch matchTokenAt getResp.body.toList = some tok →
        (reFindall matchErrTypeAt getResp.body.toList).getLast? = some raw →
        restart_device getResp postResp
          = (some { IF_ACTION := "devrestart", IF_ERRORSTR := "SUCC", IF_ERRORPARAM := "SUCC",
                    IF_ERRORTYPE := String.mk (parseErrorType raw), flag := "1",
                    _SESSION_TOKEN := String.mk tok },
             postResp.status == 200))
    ∧ (∀ b : String,
        (restart_device getResp { status := postResp.status, body := b }).2
          = (restart_device getResp postResp).2) := by
  refine ⟨?_, ?_, ?_, ?_, ?_⟩
  · intro h; simp [restart_device, h]
  · intro h
    simp only [String.toList] at h
    by_cases hs : getResp.status = 200
    · simp [restart_device, hs, h]
    · simp [restart_device, hs]
  · intro h
    simp only [String.toList] at h
    by_cases hs : getResp.status = 200
    · simp only [restart_device, hs]
      simp [h]
      split <;> rfl
    · simp [restart_device, hs]
  · intro tok raw hs htok hlast
    simp only [String.toList] at htok hlast
    simp [restart_device, hs, htok, hlast]
  · intro b
    by_cases hs : getResp.status = 200
    · cases htok : reSearch matchTokenAt getResp.body.data with
      | none => simp [restart_device, hs, htok]
      | some tok =>
        cases hlast : (reFindall matchErrTypeAt getResp.body.data).getLast? with
        | none => simp [restart_device, hs, htok, hlast]
        | some raw => simp [restart_device, hs, htok, hlast]
    · simp [restart_device, hs]

set_option maxRecDepth 10000 in
/-- Witness for C7 on a concrete restart page: the last of the two harvested
codes is decoded and posted with the harvested token. -/
theorem c7_restart_two_phase_witness :
    restart_device { status := 200, body := restartPageEx } { status := 200, body := "" }
      = (some { IF_ACTION := "devrestart", IF_ERRORSTR := "SUCC", IF_ERRORPARAM := "SUCC",
                IF_ERRORTYPE := "3334", flag := "1", _SESSION_TOKEN := "TOK123" },
         true) :=
  ((c7_restart_two_phase { status := 200, body := restartPageEx }
      { status := 200, body := "" }).2.2.2.1
    "TOK123".toList "\\x21\\x22".toList rfl (by decide) (by decide)).trans (by decide)

set_option maxRecDepth 40000 in
/-- Claim C4: per LAN table, the first packets/bytes pair gives rx_packets and
rx_bytes, the second pair (when present) gives tx_packets and tx_bytes, and
the last lone numeric cell gives error_frames; a table from which nothing is
extracted is dropped, never returned as a blank record; and the spec's
worked example page extracts to exactly the claimed record. -/
theorem c4_lan_extraction :
    (∀ t : List Char,
      (parseLanTable t).rx_packets = ((reFindall matchPairAt t).head?).map Prod.fst
      ∧ (parseLanTable t).rx_bytes = ((reFindall matchPairAt t).head?).map Prod.snd
      ∧ (parseLanTable t).tx_packets = ((reFindall matchPairAt t)[1]?).map Prod.fst
      ∧ (parseLanTable t).tx_bytes = ((reFindall matchPairAt t)[1]?).map Prod.snd
      ∧ (parseLanTable t).error_frames = (reFindall matchLoneAt t).getLast?)
    ∧ (∀ (resp : HttpResponse) (ports : List LanPort) (p : LanPort),
        get_lan_info resp = some ports → p ∈ ports → p.isBlank = false)
    ∧ get_lan_info { status := 200, body := lanPageEx } = some [lanPortEx] := by
  refine ⟨?_, ?_, by decide⟩
  · intro t
    refine ⟨?_, ?_, ?_, ?_, ?_⟩
    · simp [parseLanTable, reSearch_eq_head]
    · simp [parseLanTable, reSearch_eq_head]
    · by_cases h : 2 ≤ (reFindall matchPairAt t).length
      · simp [parseLanTable, h]
      · have hn : (reFindall matchPairAt t)[1]? = none := List.getElem?_eq_none (by omega)
        simp [parseLanTable, h, hn]
    · by_cases h : 2 ≤ (reFindall matchPairAt t).length
      · simp [parseLanTable, h]
      · have hn : (reFindall matchPairAt t)[1]? = none := List.getElem?_eq_none (by omega)
        simp [parseLanTable, h, hn]
    · cases hs : reSearch matchLoneAt t with
      | some g => simp [parseLanTable, hs]
      | none =>
        have hnil : reFindall matchLoneAt t = [] := by
          have hh := reSearch_eq_head matchLoneAt t
          rw [hs] at hh
          exact List.head?_eq_none_iff.mp hh.symm
        simp [parseLanTable, hs, hnil]
  · intro resp ports p hresp hp
    by_cases hs : resp.status = 200
    · simp only [get_lan_info, hs, ne_eq, not_true_eq_false, if_false] at hresp
      by_cases he :
          (((reFindall matchTableAt resp.body.toList).map parseLanTable).filter
            (fun q => !q.isBlank)).isEmpty = true
      · rw [if_pos he] at hresp
        exact absurd hresp (by simp)
      · rw [if_neg he] at hresp
        obtain rfl : _ = ports := Option.some.inj hresp
        have := List.of_mem_filter hp
        simpa using this
    · simp [get_lan_info, hs] at hresp

/-- Witness for C4: the example record is not blank, via the drop-blank part
of the theorem applied to the example page. -/
theorem c4_lan_extraction_witness : lanPortEx.isBlank = false :=
  c4_lan_extraction.2.1 { status := 200, body := lanPageEx } [lanPortEx] lanPortEx
    c4_lan_extraction.2.2 (by decide)

/-- An `optField` probe that returned without raising carries the parsed
value of the first regex match (or nothing when the pattern is absent). -/
theorem optField_ok_val (name : String) (body : List Char) (a : Option Int)
    (h : optField name body = .ok a) :
    a = (reSearch (matchVarAt name.toList) body).bind pyIntDec? := by
  unfold optField at h
  split at h
  · rename_i heq
    rw [heq]
    simp only [Option.none_bind]
    exact (Except.ok.inj h).symm
  · rename_i g heq
    split at h
    · rename_i n heq2
      rw [heq, Option.some_bind, heq2]
      exact (Except.ok.inj h).symm
    · exact absurd h (by simp)

/-- Claim C5: whenever `get_optical_info` returns a populated record, each
field is the raw matched integer scaled by its fixed divisor and rounded to
its fixed precision — rx/tx power by 10000 to 2 decimals, current and
temperature by 1000 to 4 decimals, voltage by 1000000 to 4 decimals — the
connected flag is true exactly when the loid-state code equals 1, and the
raw code is preserved unchanged; and the spec's example raws scale to
123.45, 12.0, 3.3 and 45.0. -/
theorem c5_optical_scaling :
    (∀ (resp : HttpResponse) (o : OpticalInfo),
      get_optical_info resp = .ok (some o) →
      o.rx_power = ((reSearch (matchVarAt "RxPower".toList) resp.body.toList).bind pyIntDec?).map
          (fun n => scaleRound n 10000 2)
      ∧ o.tx_power = ((reSearch (matchVarAt "TxPower".toList) resp.body.toList).bind pyIntDec?).map
          (fun n => scaleRound n 10000 2)
      ∧ o.current = ((reSearch (matchVarAt "Current".toList) resp.body.toList).bind pyIntDec?).map
          (fun n => scaleRound n 1000 4)
      ∧ o.voltage = ((reSearch (matchVarAt "Volt".toList) resp.body.toList).bind pyIntDec?).map
          (fun n => scaleRound n 1000000 4)
      ∧ o.temperature = ((reSearch (matchVarAt "Temp".toList) resp.body.toList).bind pyIntDec?).map
          (fun n => scaleRound n 1000 4)
      ∧ o.connected = (reSearch matchLoidAt resp.body.toList).map (fun s => s == 1)
      ∧ o.loid_state = reSearch matchLoidAt resp.body.toList)
    ∧ scaleRound 1234500 10000 2 = (12345 : ℚ) / 100
    ∧ scaleRound 12000 1000 4 = 12
    ∧ scaleRound 3300000 1000000 4 = (33 : ℚ) / 10
    ∧ scaleRound 45000 1000 4 = 45 := by
  refine ⟨?_,
    by rw [scaleRound, show roundHalfEven (1234500 * (10 : Int) ^ 2) 10000 = 12345 from by decide]
       norm_num,
    by rw [scaleRound, show roundHalfEven (12000 * (10 : Int) ^ 4) 1000 = 120000 from by decide]
       norm_num,
    by rw [scaleRound, show roundHalfEven (3300000 * (10 : Int) ^ 4) 1000000 = 33000 from by decide]
       norm_num,
    by rw [scaleRound, show roundHalfEven (45000 * (10 : Int) ^ 4) 1000 = 450000 from by decide]
       norm_num⟩
  intro resp o h
  by_cases hs : resp.status = 200
  · simp only [get_optical_info, hs, bind, Except.bind] at h
    rw [if_neg (by simp)] at h
    split at h
    · exact absurd h (by simp)
    · rename_i rx h1
      split at h
      · exact absurd h (by simp)
      · rename_i tx h2
        split at h
        · exact absurd h (by simp)
        · rename_i cur h3
          split at h
          · exact absurd h (by simp)
          · rename_i vol h4
            split at h
            · exact absurd h (by simp)
            · rename_i tem h5
              split at h
              · exact absurd h (by simp [pure, Except.pure])
              · have ho := Option.some.inj (Except.ok.inj h)
                subst ho
                refine ⟨?_, ?_, ?_, ?_, ?_, rfl, rfl⟩
                · rw [optField_ok_val _ _ _ h1]
                · rw [optField_ok_val _ _ _ h2]
                · rw [optField_ok_val _ _ _ h3]
                · rw [optField_ok_val _ _ _ h4]
                · rw [optField_ok_val _ _ _ h5]
  · simp [get_optical_info, hs] at h

set_option maxRecDepth 40000 in
/-- Witness for C5 on a concrete optical page carrying the spec's raw values. -/
theorem c5_optical_scaling_witness :
    get_optical_info { status := 200, body := opticalPageEx } = .ok (some opticalInfoEx)
    ∧ opticalInfoEx.connected
        = (reSearch matchLoidAt ({ status := 200, body := opticalPageEx } : HttpResponse).body.toList).map
            (fun s => s == 1)
    ∧ opticalInfoEx.loid_state
        = reSearch matchLoidAt ({ status := 200, body := opticalPageEx } : HttpResponse).body.toList :=
  ⟨by rfl,
   (c5_optical_scaling.1 _ opticalInfoEx (by rfl)).2.2.2.2.2.1,
   (c5_optical_scaling.1 _ opticalInfoEx (by rfl)).2.2.2.2.2.2⟩

/-- An `optField` probe returns `ok none` exactly when its pattern is absent. -/
theorem optField_ok_none_iff (name : String) (body : List Char) :
    optField name body = .ok none ↔ reSearch (matchVarAt name.toList) body = none := by
  unfold optField
  constructor
  · intro h
    split at h
    · rename_i heq; exact heq
    · rename_i g heq
      split at h
      · exact absurd h (by simp)
      · exact absurd h (by simp)
  · intro h; rw [h]

/-- Claim C8: for each of the three getters, a non-200 response yields no
data rather than raising; on a 200 response, zero extracted fields (zero
usable tables for LAN) yield no data rather than a blank record or list;
and a populated device record carries exactly the fields whose probes
matched, entity-decoded — none defaulted. -/
theorem c8_failure_semantics :
    (∀ resp : HttpResponse, resp.status ≠ 200 →
      get_device_info resp = none
      ∧ get_optical_info resp = .ok none
      ∧ get_lan_info resp = none)
    ∧ (∀ resp : HttpResponse, resp.status = 200 →
        (get_device_info resp = none ↔
          (devField "Frm_CarrierName" resp.body.toList = none
          ∧ devField "Frm_ModelName" resp.body.toList = none
          ∧ devField "Frm_SerialNumber" resp.body.toList = none
          ∧ devField "Frm_HardwareVer" resp.body.toList = none
          ∧ devField "Frm_SoftwareVer" resp.body.toList = none
          ∧ devField "Frm_BootVer" resp.body.toList = none)))
    ∧ (∀ (resp : HttpResponse) (d : DeviceInfo), get_device_info resp = some d →
        d.carrier_name = devField "Frm_CarrierName" resp.body.toList
        ∧ d.model_name = devField "Frm_ModelName" resp.body.toList
        ∧ d.serial_number = devField "Frm_SerialNumber" resp.body.toList
        ∧ d.hardware_ver = devField "Frm_HardwareVer" resp.body.toList
        ∧ d.software_ver = devField "Frm_SoftwareVer" resp.body.toList
        ∧ d.boot_ver = devField "Frm_BootVer" resp.body.toList
        ∧ d.isBlank = false)
    ∧ (∀ resp : HttpResponse, resp.status = 200 →
        (get_optical_info resp = .ok none ↔
          (reSearch (matchVarAt "RxPower".toList) resp.body.toList = none
          ∧ reSearch (matchVarAt "TxPower".toList) resp.body.toList = none
          ∧ reSearch (matchVarAt "Current".toList) resp.body.toList = none
          ∧ reSearch (matchVarAt "Volt".toList) resp.body.toList = none
          ∧ reSearch (matchVarAt "Temp".toList) resp.body.toList = none
          ∧ reSearch matchLoidAt resp.body.toList = none)))
    ∧ (∀ resp : HttpResponse, resp.status = 200 →
        (get_lan_info resp = none ↔
          ∀ t ∈ reFindall matchTableAt resp.body.toList, (parseLanTable t).isBlank = true)) := by
  refine ⟨?_, ?_, ?_, ?_, ?_⟩
  · intro resp h
    refine ⟨?_, ?_, ?_⟩ <;> simp [get_device_info, get_optical_info, get_lan_info, h]
  · intro resp hs
    simp only [get_device_info]
    rw [if_neg (by simp [hs])]
    constructor
    · intro h
      split at h
      · rename_i heq
        simp only [DeviceInfo.isBlank, Bool.and_eq_true, Option.isNone_iff_eq_none] at heq
        exact ⟨heq.1.1.1.1.1, heq.1.1.1.1.2, heq.1.1.1.2, heq.1.1.2, heq.1.2, heq.2⟩
      · exact absurd h (by simp)
    · intro hf
      obtain ⟨g1, g2, g3, g4, g5, g6⟩ := hf
      simp only [String.toList] at g1 g2 g3 g4 g5 g6
      rw [if_pos (by simp [DeviceInfo.isBlank, g1, g2, g3, g4, g5, g6])]
  · intro resp d h
    simp only [get_device_info] at h
    split at h
    · exact absurd h (by simp)
    · split at h
      · exact absurd h (by simp)
      · rename_i hb
        obtain rfl := (Option.some.inj h).symm
        exact ⟨rfl, rfl, rfl, rfl, rfl, rfl, by simpa using hb⟩
  · intro resp hs
    constructor
    · intro h
      simp only [get_optical_info, bind, Except.bind] at h
      rw [if_neg (by simp [hs])] at h
      split at h
      · exact absurd h (by simp)
      · rename_i rx h1
        split at h
        · exact absurd h (by simp)
        · rename_i tx h2
          split at h
          · exact absurd h (by simp)
          · rename_i cur h3
            split at h
            · exact absurd h (by simp)
            · rename_i vol h4
              split at h
              · exact absurd h (by simp)
              · rename_i tem h5
                split at h
                · rename_i hb
                  simp only [OpticalInfo.isBlank, Bool.and_eq_true, Option.isNone_iff_eq_none,
                    Option.map_eq_none'] at hb
                  obtain ⟨⟨⟨⟨⟨⟨hrx, htx⟩, hcur⟩, hvol⟩, htem⟩, _⟩, hloid⟩ := hb
                  subst hrx; subst htx; subst hcur; subst hvol; subst htem
                  exact ⟨(optField_ok_none_iff _ _).mp h1, (optField_ok_none_iff _ _).mp h2,
                    (optField_ok_none_iff _ _).mp h3, (optField_ok_none_iff _ _).mp h4,
                    (optField_ok_none_iff _ _).mp h5, hloid⟩
                · exact absurd h (by simp [pure, Except.pure])
    · rintro ⟨f1, f2, f3, f4, f5, f6⟩
      have e1 := (optField_ok_none_iff "RxPower" resp.body.toList).mpr f1
      have e2 := (optField_ok_none_iff "TxPower" resp.body.toList).mpr f2
      have e3 := (optField_ok_none_iff "Current" resp.body.toList).mpr f3
      have e4 := (optField_ok_none_iff "Volt" resp.body.toList).mpr f4
      have e5 := (optField_ok_none_iff "Temp" resp.body.toList).mpr f5
      simp only [get_optical_info, bind, Except.bind]
      rw [if_neg (by simp [hs])]
      rw [e1, e2, e3, e4, e5, f6]
      simp [OpticalInfo.isBlank, pure, Except.pure]
  · intro resp hs
    simp only [get_lan_info]
    rw [if_neg (by simp [hs])]
    constructor
    · intro h
      split at h
      · rename_i heq
        intro t ht
        rw [List.isEmpty_iff] at heq
        have := List.filter_eq_nil_iff.mp heq (parseLanTable t) (List.mem_map_of_mem _ ht)
        simpa using this
      · exact absurd h (by simp)
    · intro hall
      rw [if_pos]
      rw [List.isEmpty_iff]
      refine List.filter_eq_nil_iff.mpr ?_
      intro a ha
      obtain ⟨t, ht, rfl⟩ := List.mem_map.mp ha
      simp [hall t ht]

set_option maxRecDepth 40000 in
/-- Witness for C8: a 404 yields no device data, and the two-field device
page yields exactly its two fields, entity-decoded and stripped. -/
theorem c8_failure_semantics_witness :
    get_device_info { status := 404, body := "" } = none
    ∧ ({ carrier_name := some "ACME & Co", model_name := some "SG350", serial_number := none,
         hardware_ver := none, software_ver := none, boot_ver := none } : DeviceInfo).isBlank
        = false :=
  ⟨(c8_failure_semantics.1 { status := 404, body := "" } (by decide)).1,
   (c8_failure_semantics.2.2.1 { status := 200, body := devPageEx }
      { carrier_name := some "ACME & Co", model_name := some "SG350", serial_number := none,
        hardware_ver := none, software_ver := none, boot_ver := none }
      (by decide)).2.2.2.2.2.2⟩

/-- Claim C9: the coordinator's refresh performs the optical fetch and then
the LAN fetch, in that order, and always returns a snapshot whose
`optical_info` is the fetched record or the empty record and whose
`lan_info` is the fetched list or the empty list — by the `Snapshot` type,
neither field is ever null. -/
theorem c9_refresh_normalization (opt : Option OpticalInfo) (lan : Option (List LanPort)) :
    (_async_update_data opt lan).2 = [FetchCall.optical, FetchCall.lan]
    ∧ (_async_update_data opt lan).1.optical_info = opt.getD emptyOptical
    ∧ (_async_update_data opt lan).1.lan_info = lan.getD [] := by
  cases opt <;> cases lan <;> exact ⟨rfl, rfl, rfl⟩
